import Mathlib

/-!
Verification of the dialog/simulation controller of the ask-cli repository.

The development shallowly embeds the TypeScript sources:
  * `src/lib/controllers/dialog-controller/index.ts`
    (class `DialogController`, and the metrics classes `MetricAction`,
    `MetricClient` bundled in the same file),
  * `src/lib/model/resources-config/ask-states.ts` (class `AskStates`).

Callback-passing asynchronous code is embedded as pure functions: the
behaviour of the network on a turn is passed in as an explicit environment
(`TransportStart`, `PollTransport`), and each operation returns the updated
controller state together with a trace of the externally observable events
(whether a request was issued, whether polling happened, which error was
surfaced).  Helpers that the repository imports from files not included in
the sources (`stringUtils`, the superclass `SkillSimulationController`, the
simulation response parser) are modelled from the specification; their doc
comments say so explicitly.
-/

/-- JavaScript `String.prototype.trim`: strips leading and trailing
whitespace.  Implemented over the underlying character list so that it is
fully executable inside the kernel. -/
def jsTrim (s : String) : String :=
  ⟨((s.data.dropWhile Char.isWhitespace).reverse.dropWhile Char.isWhitespace).reverse⟩

/-- Modelled from the spec: `stringUtils.isNonBlankString` from
`@src/utils/string-utils` (not part of the provided sources); the spec calls
it "the non-blank-string validity check".  A string is non-blank when it
contains a non-whitespace character, i.e. trimming does not leave it empty. -/
def stringUtils.isNonBlankString (s : String) : Bool :=
  jsTrim s ≠ ""

/-- JavaScript truthiness of a `string | null | undefined` value: `null`,
`undefined` and the empty string are falsy, every other string is truthy. -/
def truthyOptStr : Option String → Bool
  | none => false
  | some s => s ≠ ""

/-- The parsed abstraction of a terminal simulation-result body.  The body
shape is owned by the remote service; the controller only consumes it through
the three parser accessors below. -/
structure SimBody where
  errorMessage : Option String
  sessionShouldEnd : Bool
  captions : List String
  deriving DecidableEq, Repr

/-- Modelled from the spec: `responseParser.shouldEndSession` of
`@src/controllers/dialog-controller/simulation-response-parser` (not part of
the provided sources) — "true iff the parsed body indicates the dialog
session has closed (service-defined field, absent ⇒ false)". -/
def responseParser.shouldEndSession (b : SimBody) : Bool :=
  b.sessionShouldEnd

/-- Modelled from the spec: `responseParser.getErrorMessage` — "extracts a
service-reported error message; absent ⇒ no error". -/
def responseParser.getErrorMessage (b : SimBody) : Option String :=
  b.errorMessage

/-- Modelled from the spec: `responseParser.getCaption` — "extracts zero or
more spoken-response strings in the order the service returned them". -/
def responseParser.getCaption (b : SimBody) : List String :=
  b.captions

/-- A start-simulation HTTP response object, as consumed by
`evaluateUtterance`: its `statusCode` and the optional `body.id` simulation
handle. -/
structure StartResponse where
  statusCode : Nat
  bodyId : Option String
  deriving DecidableEq, Repr

/-- What the transport layer does if a start-simulation request is issued:
either a pure transport failure that yields no response object, or a response
object (whose status code may still indicate a remote error). -/
inductive TransportStart where
  | noResponse (err : String)
  | response (r : StartResponse)
  deriving DecidableEq, Repr

/-- What the poll operation yields if it is performed: a poll failure, or a
terminal response body. -/
inductive PollTransport where
  | pollErr (err : String)
  | response (body : SimBody)
  deriving DecidableEq, Repr

/-- The network environment of one conversational turn. -/
structure TurnEnv where
  start : TransportStart
  poll : PollTransport
  deriving DecidableEq, Repr

/-- Outcome of the (superclass) start call as delivered to its callback:
`(err, response)` with a local validation error, a transport error carrying
no response object, or a received response object. -/
inductive StartResult where
  | validationError
  | transportError (err : String)
  | gotResponse (r : StartResponse)
  deriving DecidableEq, Repr

/-- The kind of error surfaced to the user for one turn. -/
inductive ErrKind where
  | validation
  | transport (err : String)
  | remoteStatus
  | poll (err : String)
  | simulation (msg : String)
  deriving DecidableEq, Repr

/-- Externally observable events of one `evaluateUtterance` turn:
whether a network start-simulation request was issued, whether the poll
operation ran, and which error (if any) was surfaced. -/
structure TurnTrace where
  startRequested : Bool
  polled : Bool
  error : Option ErrKind
  deriving DecidableEq, Repr

/-- The mutable state of a `DialogController` object
(`src/lib/controllers/dialog-controller/index.ts`): the `newSession` flag and
the `utteranceCache`, plus the `_skillId` and `_locale` inherited from the
superclass and used by `createReplayFile`. -/
structure DialogController where
  newSession : Bool
  utteranceCache : List String
  _skillId : String
  _locale : String
  deriving DecidableEq, Repr

/-- The `configuration` object taken by the `DialogController` constructor.
Its `newSession` field has TypeScript type `any`; we model it as
`Option Bool` (`some b` = the JavaScript boolean `b`, `none` = any
non-boolean value such as `undefined`), which is exactly the distinction the
constructor's `=== false` test can observe. -/
structure IDialogController where
  newSession : Option Bool
  skillId : String
  locale : String
  deriving DecidableEq, Repr

/-- The `DialogController` constructor (lines 24–28 of
`dialog-controller/index.ts`):
`this.newSession = configuration.newSession === false ? configuration.newSession : true`
and `this.utteranceCache = []`. -/
def DialogController.construct (configuration : IDialogController) : DialogController :=
  { newSession := if configuration.newSession = some false then false else true
    utteranceCache := []
    _skillId := configuration.skillId
    _locale := configuration.locale }

/-- Modelled from the spec: `SkillSimulationController.startSkillSimulation`,
the superclass implementation invoked by `super.startSkillSimulation` (the
superclass file is not part of the provided sources).  Per the spec, an
empty/whitespace-only utterance is rejected before any request is issued and
reported as a local validation error; otherwise a single start-simulation
request is issued and its transport outcome is handed to the callback.  The
returned `Bool` records whether a network request was issued.  The
`newSession` argument only shapes the remote request payload and does not
influence the locally observable outcome. -/
def superStartSkillSimulation (utterance : String) (_newSession : Bool)
    (t : TransportStart) : StartResult × Bool :=
  if stringUtils.isNonBlankString utterance then
    match t with
    | .noResponse e => (.transportError e, true)
    | .response r => (.gotResponse r, true)
  else
    (.validationError, false)

/-- `DialogController.startSkillSimulation` (lines 129–140): wraps the
superclass call, and pushes the utterance onto `this.utteranceCache` exactly
when the callback received a (truthy) response object, before forwarding
`(err, response)` to its own callback. -/
def DialogController.startSkillSimulation (self : DialogController)
    (utterance : String) (newSession : Bool) (t : TransportStart) :
    DialogController × StartResult × Bool :=
  let (res, issued) := superStartSkillSimulation utterance newSession t
  match res with
  | .gotResponse _ =>
      ({ self with utteranceCache := self.utteranceCache ++ [utterance] }, res, issued)
  | _ => (self, res, issued)

/-- `DialogController.getSkillSimulationResult` (lines 148–160): forwards a
poll error unchanged; otherwise extracts `getErrorMessage(response.body)` and,
if it is truthy, fails the turn with it; otherwise sets
`this.newSession = false` and delivers the response.  The superclass poll
machinery is not part of the provided sources; its terminal outcome is the
`PollTransport` environment. -/
def DialogController.getSkillSimulationResult (self : DialogController)
    (p : PollTransport) : DialogController × Except ErrKind SimBody :=
  match p with
  | .pollErr e => (self, .error (.poll e))
  | .response body =>
      if truthyOptStr (responseParser.getErrorMessage body) then
        (self, .error (.simulation ((responseParser.getErrorMessage body).getD "")))
      else
        ({ self with newSession := false }, .ok body)

/-- `DialogController.clearSession` (lines 165–168): resets to a new session
and clears the utterance cache. -/
def DialogController.clearSession (self : DialogController) : DialogController :=
  { self with newSession := true, utteranceCache := [] }

/-- `DialogController.evaluateUtterance` (lines 36–69): trims the input and
starts the simulation; on a start error surfaces it; on a response with
`statusCode >= 300` surfaces the remote error without polling; otherwise
polls for the result, surfaces a poll/simulation error, or — on success —
clears the session when the parsed body signals session end.  Returns the
final controller state and the turn's observable trace. -/
def DialogController.evaluateUtterance (self : DialogController)
    (input : String) (env : TurnEnv) : DialogController × TurnTrace :=
  let (self1, res, issued) :=
    self.startSkillSimulation (jsTrim input) self.newSession env.start
  match res with
  | .validationError =>
      (self1, { startRequested := issued, polled := false, error := some .validation })
  | .transportError e =>
      (self1, { startRequested := issued, polled := false, error := some (.transport e) })
  | .gotResponse r =>
      if r.statusCode ≥ 300 then
        (self1, { startRequested := issued, polled := false, error := some .remoteStatus })
      else
        match self1.getSkillSimulationResult env.poll with
        | (self2, .error e) =>
            (self2, { startRequested := issued, polled := true, error := some e })
        | (self2, .ok body) =>
            let self3 :=
              if responseParser.shouldEndSession body then self2.clearSession else self2
            (self3, { startRequested := issued, polled := true, error := none })

/-- The replay document written by `createReplayFile`:
`{ skillId, locale, type: "text", userInput }`. -/
structure ReplayContent where
  skillId : String
  locale : String
  type : String
  userInput : List String
  deriving DecidableEq, Repr

/-- A file system, as the replay writer observes it: each path maps to the
replay document it holds, if any. -/
def FileSystem : Type := String → Option ReplayContent

/-- `DialogController.createReplayFile` (lines 174–184): a no-op unless the
file name is a non-blank string; otherwise `fs.outputJSONSync` writes the
replay document to that path, overwriting any existing file. -/
def DialogController.createReplayFile (self : DialogController)
    (fsys : FileSystem) (filename : String) (utterances : List String) :
    FileSystem :=
  if stringUtils.isNonBlankString filename then
    fun p =>
      if p = filename then
        some { skillId := self._skillId, locale := self._locale,
               type := "text", userInput := utterances }
      else fsys p
  else
    fsys

/-- The record-command hook of `setupSpecialCommands` (lines 82–95): it copies
the live utterance cache and appends the `".quit"` marker to the copy when the
`--append-quit` flag was given; this copy is what `createReplayFile`
receives. -/
def recordUtteranceList (cache : List String) (shouldAppendQuit : Bool) :
    List String :=
  if shouldAppendQuit then cache ++ [".quit"] else cache

/-- One `AskStates` object (`src/lib/model/resources-config/ask-states.ts`):
`id` is the identity of the JavaScript object (two objects are the same
instance iff their `id`s are equal), `_path` the file path it was opened
with. -/
structure AskStatesInstance where
  id : Nat
  _path : String
  deriving DecidableEq, Repr

/-- The module-level state of `ask-states.ts`: the single `instance` slot
("instance which stores the singleton"), plus a counter supplying fresh
object identities. -/
structure AskStatesModule where
  inst : Option AskStatesInstance
  nextId : Nat
  deriving DecidableEq, Repr

/-- The `AskStates` constructor (lines 22–30): if the stored `instance`
exists and its `_path` strictly equals `filePath`, that instance is returned;
otherwise a brand-new object is constructed (`super(filePath)`, `read()`) and
becomes the stored `instance`.  Returns the object handed to the caller and
the updated module state. -/
def AskStates.construct (m : AskStatesModule) (filePath : String) :
    AskStatesInstance × AskStatesModule :=
  match m.inst with
  | some i =>
      if i._path = filePath then
        (i, m)
      else
        let j : AskStatesInstance := { id := m.nextId, _path := filePath }
        (j, { inst := some j, nextId := m.nextId + 1 })
  | none =>
      let j : AskStatesInstance := { id := m.nextId, _path := filePath }
      (j, { inst := some j, nextId := m.nextId + 1 })

/-- `AskStates.getInstance` (lines 37–39): returns the stored singleton. -/
def AskStates.getInstance (m : AskStatesModule) : Option AskStatesInstance :=
  m.inst

/-- `AskStates.dispose` (lines 41–43): clears the stored singleton. -/
def AskStates.dispose (m : AskStatesModule) : AskStatesModule :=
  { m with inst := none }

/-- The `MetricActionResult` constants. -/
def MetricActionResult.SUCCESS : String := "Success"

/-- The `MetricActionResult` failure constant. -/
def MetricActionResult.FAILURE : String := "Failure"

/-- One `MetricAction` object: the fields `end` reads or writes.  `endTime`
and `result` start as `null` (`none`); timestamps are abstract `Nat`s.  The
`error` argument of `end` has type `Error | string | null`; after the
`instanceof Error` extraction it is a `string | null`, modelled as
`Option String`. -/
structure MetricAction where
  endTime : Option Nat
  failureMessage : String
  result : Option String
  _ended : Bool
  deriving DecidableEq, Repr

/-- A freshly constructed `MetricAction` (constructor, lines 213–222):
`endTime = null`, `failureMessage = ''`, `result = null`, `_ended = false`. -/
def MetricAction.init : MetricAction :=
  { endTime := none, failureMessage := "", result := none, _ended := false }

/-- `MetricAction.end` (lines 228–239): returns unchanged if `_ended` is
already set; otherwise sets `result` to `Failure` iff the extracted error
message is truthy (non-null, non-empty) and `Success` otherwise, sets
`failureMessage` to `errorMessage || ''`, stamps `endTime`, and marks
`_ended`. -/
def MetricAction.close (a : MetricAction) (error : Option String) (now : Nat) :
    MetricAction :=
  if a._ended then a
  else
    { a with
      result := some (if truthyOptStr error then MetricActionResult.FAILURE
                      else MetricActionResult.SUCCESS)
      failureMessage := if truthyOptStr error then error.getD "" else ""
      endTime := some now
      _ended := true }

/-- The configured retry budget `this.postRetries = 3` of `MetricClient`. -/
def MetricClient.postRetries : Nat := 3

/-- `MetricClient._retry(retries, fn)` (lines 349–351): invokes `fn` once;
on rejection, recurses with `retries - 1` while `retries > 1`, otherwise
rejects.  `outcomes k` tells whether the `k`-th invocation of `fn` (counting
from `k₀`) fulfills.  Returns whether the whole chain fulfilled, and how many
times `fn` was invoked. -/
def MetricClient.retry (retries : Nat) (outcomes : Nat → Bool) (k₀ : Nat) :
    Bool × Nat :=
  if outcomes k₀ then (true, 1)
  else
    match retries with
    | r + 2 =>
        let p := MetricClient.retry (r + 1) outcomes (k₀ + 1)
        (p.1, p.2 + 1)
    | _ => (false, 1)

/-- `MetricClient.sendData` (lines 313–325): when disabled, clears the action
list and resolves `{success: true}` without any upload; otherwise uploads via
`_retry(postRetries, post)` and resolves `{success: true}` on fulfilment and
`{success: false}` on rejection — it never rejects.  Returns the resolved
value and the number of POST invocations. -/
def MetricClient.sendData (enabled : Bool) (outcomes : Nat → Bool) :
    Bool × Nat :=
  if enabled then
    let p := MetricClient.retry MetricClient.postRetries outcomes 0
    (p.1, p.2)
  else
    (true, 0)

/-! Sample values used by witnesses and counterexamples. -/

/-- A sample freshly constructed controller. -/
def sampleController : DialogController :=
  DialogController.construct { newSession := none, skillId := "skill-1", locale := "en-US" }

/-- A sample controller mid-session, with a non-trivial history. -/
def midSessionController : DialogController :=
  { newSession := false, utteranceCache := ["hello", "weather"],
    _skillId := "skill-1", _locale := "en-US" }

/-- An empty file system. -/
def fs0 : FileSystem := fun _ => none

/-- A turn environment whose start response carries a remote error status. -/
def envRemoteError : TurnEnv :=
  { start := .response { statusCode := 400, bodyId := none },
    poll := .pollErr "unused" }

/-- Small evaluation fact used to reduce the blank-input guard. -/
theorem isNonBlankString_empty : stringUtils.isNonBlankString "" = false := by
  decide

/-- C1: an input that trims to the empty string is rejected by a local
validation error before any network request: no start-simulation request is
issued, no polling happens, the controller state (hence the utterance
history) is unchanged, and the surfaced error is the validation error, not a
transport or remote one. -/
theorem evaluateUtterance_blank_rejected_locally
    (self : DialogController) (input : String) (env : TurnEnv)
    (h : (jsTrim input) = "") :
    (self.evaluateUtterance input env).1 = self ∧
    (self.evaluateUtterance input env).2.startRequested = false ∧
    (self.evaluateUtterance input env).2.polled = false ∧
    (self.evaluateUtterance input env).2.error = some ErrKind.validation := by
  simp [DialogController.evaluateUtterance, DialogController.startSkillSimulation,
        superStartSkillSimulation, h, isNonBlankString_empty]

/-- C1 witness: the whitespace-only input `"   "` at a concrete controller
and environment. -/
theorem evaluateUtterance_blank_rejected_locally_witness :
    jsTrim "   " = "" ∧
    ((sampleController.evaluateUtterance "   " envRemoteError).1 = sampleController ∧
     (sampleController.evaluateUtterance "   " envRemoteError).2.startRequested = false ∧
     (sampleController.evaluateUtterance "   " envRemoteError).2.polled = false ∧
     (sampleController.evaluateUtterance "   " envRemoteError).2.error = some ErrKind.validation) :=
  ⟨by decide, evaluateUtterance_blank_rejected_locally sampleController "   " envRemoteError (by decide)⟩

/-- C2: for a non-blank utterance, the `startSkillSimulation` wrapper appends
exactly one entry — the utterance itself — to the history when the start call
produced a response object (whatever its status code, because the appended
history does not depend on `r`), and appends nothing when the start call
failed with a pure transport error yielding no response. -/
theorem startSkillSimulation_appends_iff_response
    (self : DialogController) (utterance : String) (ns : Bool) (t : TransportStart)
    (h : stringUtils.isNonBlankString utterance = true) :
    (∀ r, t = TransportStart.response r →
      (self.startSkillSimulation utterance ns t).1.utteranceCache
        = self.utteranceCache ++ [utterance]) ∧
    (∀ e, t = TransportStart.noResponse e →
      (self.startSkillSimulation utterance ns t).1.utteranceCache
        = self.utteranceCache) := by
  constructor
  · rintro r rfl
    simp [DialogController.startSkillSimulation, superStartSkillSimulation, h]
  · rintro e rfl
    simp [DialogController.startSkillSimulation, superStartSkillSimulation, h]

/-- C2 witness: a concrete remote-error-status response still appends, and a
concrete transport failure does not. -/
theorem startSkillSimulation_appends_iff_response_witness :
    stringUtils.isNonBlankString "hello" = true ∧
    (midSessionController.startSkillSimulation "hello" false
        (.response { statusCode := 400, bodyId := none })).1.utteranceCache
      = midSessionController.utteranceCache ++ ["hello"] ∧
    (midSessionController.startSkillSimulation "hello" false
        (.noResponse "ECONNRESET")).1.utteranceCache
      = midSessionController.utteranceCache :=
  ⟨by decide,
   (startSkillSimulation_appends_iff_response midSessionController "hello" false
      (.response { statusCode := 400, bodyId := none }) (by decide)).1
      { statusCode := 400, bodyId := none } rfl,
   (startSkillSimulation_appends_iff_response midSessionController "hello" false
      (.noResponse "ECONNRESET") (by decide)).2 "ECONNRESET" rfl⟩

/-- C3 counterexample: with a concrete start response of status 400 (≥ 300),
the turn does take the error branch without polling, but the utterance IS
appended to the history — its length grows from 0 to 1, contradicting the
claim that the history is not appended to. -/
theorem evaluateUtterance_remote_status_counterexample :
    (400 ≥ 300) ∧
    (sampleController.evaluateUtterance "hello" envRemoteError).2.polled = false ∧
    (sampleController.evaluateUtterance "hello" envRemoteError).2.error
      = some ErrKind.remoteStatus ∧
    ¬ ((sampleController.evaluateUtterance "hello" envRemoteError).1.utteranceCache.length
        = sampleController.utteranceCache.length) := by
  decide

/-- C3 amended: on a start response with status ≥ 300 the turn takes the
error branch without polling and `newSession` is untouched, but — because a
response object was received — the trimmed utterance is appended to the
history exactly once. -/
theorem evaluateUtterance_remote_status_error_branch
    (self : DialogController) (input : String) (r : StartResponse) (p : PollTransport)
    (hnb : stringUtils.isNonBlankString (jsTrim input) = true)
    (hs : r.statusCode ≥ 300) :
    (self.evaluateUtterance input { start := .response r, poll := p }).2.polled = false ∧
    (self.evaluateUtterance input { start := .response r, poll := p }).2.error
      = some ErrKind.remoteStatus ∧
    (self.evaluateUtterance input { start := .response r, poll := p }).1.utteranceCache
      = self.utteranceCache ++ [(jsTrim input)] ∧
    (self.evaluateUtterance input { start := .response r, poll := p }).1.newSession
      = self.newSession := by
  simp [DialogController.evaluateUtterance, DialogController.startSkillSimulation,
        superStartSkillSimulation, hnb, hs]

/-- C3 amended witness: concrete 400-status turn. -/
theorem evaluateUtterance_remote_status_error_branch_witness :
    stringUtils.isNonBlankString (jsTrim "hello") = true ∧
    ({ statusCode := 400, bodyId := none } : StartResponse).statusCode ≥ 300 ∧
    ((sampleController.evaluateUtterance "hello"
        { start := .response { statusCode := 400, bodyId := none },
          poll := .pollErr "unused" }).2.polled = false ∧
     (sampleController.evaluateUtterance "hello"
        { start := .response { statusCode := 400, bodyId := none },
          poll := .pollErr "unused" }).2.error = some ErrKind.remoteStatus ∧
     (sampleController.evaluateUtterance "hello"
        { start := .response { statusCode := 400, bodyId := none },
          poll := .pollErr "unused" }).1.utteranceCache
       = sampleController.utteranceCache ++ [jsTrim "hello"] ∧
     (sampleController.evaluateUtterance "hello"
        { start := .response { statusCode := 400, bodyId := none },
          poll := .pollErr "unused" }).1.newSession = sampleController.newSession) :=
  ⟨by decide, by decide,
   evaluateUtterance_remote_status_error_branch sampleController "hello"
     { statusCode := 400, bodyId := none } (.pollErr "unused") (by decide) (by decide)⟩

/-- C4: a turn that reaches a terminal poll response with no truthy service
error and whose parsed body signals session end leaves the controller with
`newSession = true` and an empty utterance history, whatever the state before
the turn: the session-end branch calls `clearSession`, which overrides both
the append done at the start transition and the `newSession = false`
assignment done by `getSkillSimulationResult`. -/
theorem evaluateUtterance_session_end_resets
    (self : DialogController) (input : String) (r : StartResponse) (body : SimBody)
    (hnb : stringUtils.isNonBlankString (jsTrim input) = true)
    (hcode : r.statusCode < 300)
    (hnoerr : truthyOptStr (responseParser.getErrorMessage body) = false)
    (hend : responseParser.shouldEndSession body = true) :
    (self.evaluateUtterance input
        { start := .response r, poll := .response body }).1.newSession = true ∧
    (self.evaluateUtterance input
        { start := .response r, poll := .response body }).1.utteranceCache = [] := by
  have hs : ¬ (300 ≤ r.statusCode) := by omega
  simp [DialogController.evaluateUtterance, DialogController.startSkillSimulation,
        superStartSkillSimulation, DialogController.getSkillSimulationResult,
        DialogController.clearSession, hnb, hnoerr, hend, hs]

/-- C4 witness: a concrete session-ending turn starting from a mid-session
state with a non-trivial history. -/
theorem evaluateUtterance_session_end_resets_witness :
    stringUtils.isNonBlankString (jsTrim "stop") = true ∧
    (200 < 300) ∧
    truthyOptStr (responseParser.getErrorMessage
      { errorMessage := none, sessionShouldEnd := true, captions := ["Goodbye"] }) = false ∧
    responseParser.shouldEndSession
      { errorMessage := none, sessionShouldEnd := true, captions := ["Goodbye"] } = true ∧
    ((midSessionController.evaluateUtterance "stop"
        { start := .response { statusCode := 200, bodyId := some "sim-1" },
          poll := .response { errorMessage := none, sessionShouldEnd := true,
                              captions := ["Goodbye"] } }).1.newSession = true ∧
     (midSessionController.evaluateUtterance "stop"
        { start := .response { statusCode := 200, bodyId := some "sim-1" },
          poll := .response { errorMessage := none, sessionShouldEnd := true,
                              captions := ["Goodbye"] } }).1.utteranceCache = []) :=
  ⟨by decide, by decide, by decide, by decide,
   evaluateUtterance_session_end_resets midSessionController "stop"
     { statusCode := 200, bodyId := some "sim-1" }
     { errorMessage := none, sessionShouldEnd := true, captions := ["Goodbye"] }
     (by decide) (by decide) (by decide) (by decide)⟩

/-- C5: a turn that reaches a terminal poll response with no truthy service
error and whose parsed body does not signal session end leaves
`newSession = false`, and the history is exactly the prior history with the
trimmed utterance appended at the end — all prior entries retained, in
order. -/
theorem evaluateUtterance_continuation
    (self : DialogController) (input : String) (r : StartResponse) (body : SimBody)
    (hnb : stringUtils.isNonBlankString (jsTrim input) = true)
    (hcode : r.statusCode < 300)
    (hnoerr : truthyOptStr (responseParser.getErrorMessage body) = false)
    (hend : responseParser.shouldEndSession body = false) :
    (self.evaluateUtterance input
        { start := .response r, poll := .response body }).1.newSession = false ∧
    (self.evaluateUtterance input
        { start := .response r, poll := .response body }).1.utteranceCache
      = self.utteranceCache ++ [jsTrim input] := by
  have hs : ¬ (300 ≤ r.statusCode) := by omega
  simp [DialogController.evaluateUtterance, DialogController.startSkillSimulation,
        superStartSkillSimulation, DialogController.getSkillSimulationResult,
        hnb, hnoerr, hend, hs]

/-- C5 witness: the spec's end-to-end scenario — utterance `"open my skill"`,
start response 200, terminal body with no error and no session end; history
becomes `["open my skill"]` and `newSession` becomes `false`. -/
theorem evaluateUtterance_continuation_witness :
    stringUtils.isNonBlankString (jsTrim "open my skill") = true ∧
    (200 < 300) ∧
    truthyOptStr (responseParser.getErrorMessage
      { errorMessage := none, sessionShouldEnd := false, captions := ["Hi"] }) = false ∧
    responseParser.shouldEndSession
      { errorMessage := none, sessionShouldEnd := false, captions := ["Hi"] } = false ∧
    ((sampleController.evaluateUtterance "open my skill"
        { start := .response { statusCode := 200, bodyId := some "sim-1" },
          poll := .response { errorMessage := none, sessionShouldEnd := false,
                              captions := ["Hi"] } }).1.newSession = false ∧
     (sampleController.evaluateUtterance "open my skill"
        { start := .response { statusCode := 200, bodyId := some "sim-1" },
          poll := .response { errorMessage := none, sessionShouldEnd := false,
                              captions := ["Hi"] } }).1.utteranceCache
       = sampleController.utteranceCache ++ [jsTrim "open my skill"]) :=
  ⟨by decide, by decide, by decide, by decide,
   evaluateUtterance_continuation sampleController "open my skill"
     { statusCode := 200, bodyId := some "sim-1" }
     { errorMessage := none, sessionShouldEnd := false, captions := ["Hi"] }
     (by decide) (by decide) (by decide) (by decide)⟩

/-- A configuration whose `newSession` field is the JavaScript boolean
`false`. -/
def cfgNewSessionFalse : IDialogController :=
  { newSession := some false, skillId := "skill-1", locale := "en-US" }

/-- C6 counterexample: the claim "`newSession` is true immediately after
construction for every configuration" is false — the constructor's ternary
`configuration.newSession === false ? configuration.newSession : true`
propagates an explicit `false` from the configuration. -/
theorem construct_newSession_counterexample :
    ¬ ((DialogController.construct cfgNewSessionFalse).newSession = true) := by
  decide

/-- C6 amended: immediately after construction, `newSession` is true if and
only if the configuration's `newSession` field is not the boolean `false`;
when the configuration passes exactly `false`, the field starts `false`. -/
theorem construct_newSession_default
    (configuration : IDialogController) :
    (DialogController.construct configuration).newSession = true
      ↔ configuration.newSession ≠ some false := by
  by_cases h : configuration.newSession = some false <;>
    simp [DialogController.construct, h]

/-- C7: `createReplayFile` is a no-op on a blank path; on a non-blank path it
writes `{skillId, locale, type: "text", userInput}` for the recorded
utterance list (the cache copy, with `".quit"` appended exactly when the
`--append-quit` flag was given), a second identical call changes nothing
(overwrite, no duplication), and the written `userInput` length is the input
length plus one exactly in the append-quit case. -/
theorem createReplayFile_record
    (self : DialogController) (fsys : FileSystem) (filename : String)
    (utterances : List String) (appendQuit : Bool) :
    (stringUtils.isNonBlankString filename = false →
      self.createReplayFile fsys filename (recordUtteranceList utterances appendQuit)
        = fsys) ∧
    (stringUtils.isNonBlankString filename = true →
      (self.createReplayFile
          (self.createReplayFile fsys filename (recordUtteranceList utterances appendQuit))
          filename (recordUtteranceList utterances appendQuit)
        = self.createReplayFile fsys filename (recordUtteranceList utterances appendQuit) ∧
       (self.createReplayFile fsys filename (recordUtteranceList utterances appendQuit)) filename
        = some { skillId := self._skillId, locale := self._locale, type := "text",
                 userInput := recordUtteranceList utterances appendQuit } ∧
       (recordUtteranceList utterances appendQuit).length
        = utterances.length + cond appendQuit 1 0)) := by
  refine ⟨fun hblank => ?_, fun hok => ⟨?_, ?_, ?_⟩⟩
  · simp [DialogController.createReplayFile, hblank]
  · funext p
    by_cases hp : p = filename <;>
      simp [DialogController.createReplayFile, hok, hp]
  · simp [DialogController.createReplayFile, hok]
  · cases appendQuit <;> simp [recordUtteranceList]

/-- C7 witness: recording `["hello", "weather"]` with `--append-quit` to a
concrete non-blank path. -/
theorem createReplayFile_record_witness :
    stringUtils.isNonBlankString "replay.json" = true ∧
    (midSessionController.createReplayFile
        (midSessionController.createReplayFile fs0 "replay.json"
          (recordUtteranceList ["hello", "weather"] true))
        "replay.json" (recordUtteranceList ["hello", "weather"] true)
      = midSessionController.createReplayFile fs0 "replay.json"
          (recordUtteranceList ["hello", "weather"] true) ∧
     (midSessionController.createReplayFile fs0 "replay.json"
        (recordUtteranceList ["hello", "weather"] true)) "replay.json"
      = some { skillId := midSessionController._skillId,
               locale := midSessionController._locale, type := "text",
               userInput := recordUtteranceList ["hello", "weather"] true } ∧
     (recordUtteranceList ["hello", "weather"] true).length
      = (["hello", "weather"] : List String).length + cond true 1 0) :=
  ⟨by decide,
   (createReplayFile_record midSessionController fs0 "replay.json"
      ["hello", "weather"] true).2 (by decide)⟩

/-- The initial module state of `ask-states.ts`: no stored instance. -/
def askStatesM0 : AskStatesModule := { inst := none, nextId := 0 }

/-- C8 counterexample: the store is a single-slot singleton, not a per-path
registry.  Constructing for `"a"`, then `"b"`, then `"a"` again returns a
brand-new object for `"a"` the second time (identity 2), not the existing
instance created first (identity 0), even though that instance was never
disposed — refuting "re-constructing with the same path returns the existing
instance" over sequences of constructions with different paths. -/
theorem askStates_construct_counterexample :
    (AskStates.construct askStatesM0 "a").1
      = { id := 0, _path := "a" } ∧
    (AskStates.construct
        (AskStates.construct
          (AskStates.construct askStatesM0 "a").2 "b").2 "a").1
      = { id := 2, _path := "a" } ∧
    ¬ ((AskStates.construct
          (AskStates.construct
            (AskStates.construct askStatesM0 "a").2 "b").2 "a").1
        = (AskStates.construct askStatesM0 "a").1) := by
  decide

/-- C8 amended: the constructor is an idempotent open only with respect to the
single currently stored instance — when the stored singleton was opened for
exactly the requested path, the same object is returned and the module state
is unchanged; a construction for any other path replaces the singleton with a
fresh object. -/
theorem askStates_construct_idempotent_current
    (m : AskStatesModule) (i : AskStatesInstance) (p : String)
    (h : AskStates.getInstance m = some i) (hp : i._path = p) :
    AskStates.construct m p = (i, m) := by
  simp [AskStates.getInstance] at h
  simp [AskStates.construct, h, hp]

/-- C8 amended witness: re-opening the path of the currently stored instance
returns it unchanged. -/
theorem askStates_construct_idempotent_current_witness :
    AskStates.getInstance (AskStates.construct askStatesM0 "a").2
      = some (AskStates.construct askStatesM0 "a").1 ∧
    ({ id := 0, _path := "a" } : AskStatesInstance)._path = "a" ∧
    AskStates.construct (AskStates.construct askStatesM0 "a").2 "a"
      = ((AskStates.construct askStatesM0 "a").1,
         (AskStates.construct askStatesM0 "a").2) :=
  ⟨by decide, by decide,
   askStates_construct_idempotent_current
     (AskStates.construct askStatesM0 "a").2 { id := 0, _path := "a" } "a"
     (by decide) (by decide)⟩

/-- C9: the metrics upload never escapes to the caller and respects the retry
budget — `sendData` always yields a resolved `{success}` value, the POST
closure is invoked at most `postRetries = 3` times, and the result is
`success = false` exactly when the client is enabled and the first three POST
attempts all fail (retry budget exhausted); in every other situation —
disabled client, or some attempt among the first three succeeding — it is
`success = true`. -/
theorem sendData_retry_contract (enabled : Bool) (outcomes : Nat → Bool) :
    (MetricClient.sendData enabled outcomes).2 ≤ MetricClient.postRetries ∧
    ((MetricClient.sendData enabled outcomes).1 = false ↔
      enabled = true ∧ outcomes 0 = false ∧ outcomes 1 = false ∧ outcomes 2 = false) := by
  cases enabled with
  | false => simp [MetricClient.sendData]
  | true =>
      rcases h0 : outcomes 0 <;> rcases h1 : outcomes 1 <;> rcases h2 : outcomes 2 <;>
        simp [MetricClient.sendData, MetricClient.postRetries, MetricClient.retry,
              h0, h1, h2]

/-- C10: `MetricAction.end` (embedded as `MetricAction.close`) is idempotent —
once an action has been ended, any later `end` call, with any error argument
and at any later time, leaves the whole action (in particular `result`,
`failureMessage` and `endTime`) exactly as the first call set it, because the
`_ended` guard short-circuits. -/
theorem metricAction_close_idempotent
    (a : MetricAction) (e₁ e₂ : Option String) (t₁ t₂ : Nat) :
    (a.close e₁ t₁).close e₂ t₂ = a.close e₁ t₁ := by
  by_cases h : a._ended <;> simp [MetricAction.close, h]
